import Mathlib

/-!
Verification of the environment-map binding module
(crates/bevy_pbr/src/environment_map/mod.rs).

The module holds a per-camera record of two cubemap asset handles
(diffuse and specular), a readiness check against the render-asset
cache, a binding resolver with pairwise fallback semantics, and a
static bind-group layout declaration.  We embed the data model and the
three functions shallowly: handles, texture views and samplers are
opaque identifiers (naturals), the asset cache is a partial map from
handles to GPU-resident images, and the resolver is a pure function on
these.
-/

namespace EnvironmentMap

/-- Opaque handle to an image asset (Handle of Image in the source);
only identity matters, so we use a natural number. -/
abbrev Handle := Nat

/-- Opaque reference to a GPU texture view; only identity matters. -/
abbrev TextureView := Nat

/-- Opaque reference to a GPU sampler; only identity matters. -/
abbrev Sampler := Nat

/-- A GPU-resident image in the render-asset cache.  The resolver only
reads its texture view, so that is the field we keep. -/
structure GpuImage where
  texture_view : TextureView
deriving DecidableEq, Repr

/-- The render-asset cache RenderAssets of Image: a keyed store whose
lookup may miss when an asset has not finished loading.  Modelled as a
partial map from handles to resident images. -/
def RenderAssets := Handle → Option GpuImage

/-- Cache lookup, the get method of the store used by the source. -/
def RenderAssets.get (images : RenderAssets) (h : Handle) : Option GpuImage :=
  images h

/-- The process-wide fallback cubemap provider FallbackImageCubemap:
a single always-available texture view and sampler. -/
structure FallbackImageCubemap where
  texture_view : TextureView
  sampler : Sampler
deriving DecidableEq, Repr

/-- The per-camera environment light record EnvironmentMapLight: two
handles to prefiltered cubemap images. -/
structure EnvironmentMapLight where
  diffuse_map : Handle
  specular_map : Handle
deriving DecidableEq, Repr

/-- Readiness check from the source: both handles currently resolve to
resident entries in the cache. -/
def EnvironmentMapLight.is_loaded (self : EnvironmentMapLight)
    (images : RenderAssets) : Bool :=
  (images.get self.diffuse_map).isSome && (images.get self.specular_map).isSome

/-- The binding resolver get_bindings from the source: looks up both
handles of the optional record in the cache; only if both lookups
succeed are the two real texture views used, otherwise both slots take
the fallback view.  The sampler is always the fallback provider's. -/
def get_bindings (environment_map_light : Option EnvironmentMapLight)
    (images : RenderAssets) (fallback_image_cubemap : FallbackImageCubemap) :
    TextureView × TextureView × Sampler :=
  let maps :=
    match environment_map_light.bind (fun env_map => images.get env_map.diffuse_map),
        environment_map_light.bind (fun env_map => images.get env_map.specular_map) with
    | some diffuse_map, some specular_map =>
        (diffuse_map.texture_view, specular_map.texture_view)
    | _, _ =>
        (fallback_image_cubemap.texture_view, fallback_image_cubemap.texture_view)
  (maps.1, maps.2, fallback_image_cubemap.sampler)

/-- Modelled from the spec: the texture sample type of a binding slot
descriptor; the layout uses a floating-point sample type with a
filterable flag.  The constructor of TextureSampleType used by the
source is not under src. -/
inductive TextureSampleType where
  | Float (filterable : Bool)
deriving DecidableEq, Repr

/-- Modelled from the spec: the sampler binding type of a binding slot
descriptor; the layout uses the filtering kind. -/
inductive SamplerBindingType where
  | Filtering
deriving DecidableEq, Repr

/-- Modelled from the spec: a binding slot descriptor
(BindGroupLayoutEntryBuilder) is either a cube-shaped texture slot
with a sample type or a sampler slot with a binding type. -/
inductive BindGroupLayoutEntryBuilder where
  | textureCube (sample_type : TextureSampleType)
  | samplerEntry (binding_type : SamplerBindingType)
deriving DecidableEq, Repr

/-- Modelled from the spec: the binding type constructor texture_cube
of bevy_render (not under src) builds a cube-shaped texture slot
descriptor with the given sample type. -/
def texture_cube (sample_type : TextureSampleType) : BindGroupLayoutEntryBuilder :=
  BindGroupLayoutEntryBuilder.textureCube sample_type

/-- Modelled from the spec: the binding type constructor sampler of
bevy_render (not under src) builds a sampler slot descriptor with the
given binding type. -/
def sampler (binding_type : SamplerBindingType) : BindGroupLayoutEntryBuilder :=
  BindGroupLayoutEntryBuilder.samplerEntry binding_type

/-- The layout declarator get_bind_group_layout_entries from the
source: a fixed ordered list of three slot descriptors. -/
def get_bind_group_layout_entries : List BindGroupLayoutEntryBuilder :=
  [texture_cube (TextureSampleType.Float true),
    texture_cube (TextureSampleType.Float true),
    sampler SamplerBindingType.Filtering]

/-- Concrete cache holding only handle 1 (mapped to view 7), used as a
witness input. -/
def cacheDiffuseOnly : RenderAssets :=
  fun h => if h = 1 then some (GpuImage.mk 7) else none

/-- Concrete cache holding handles 1 and 2 (views 7 and 8), used as a
witness input. -/
def cacheBoth : RenderAssets :=
  fun h => if h = 1 then some (GpuImage.mk 7)
    else if h = 2 then some (GpuImage.mk 8) else none

/-- Concrete cache agreeing with cacheDiffuseOnly on handles 1 and 2
but holding an extra unrelated entry at handle 5, used as a witness
input for noninterference. -/
def cacheExtra : RenderAssets :=
  fun h => if h = 1 then some (GpuImage.mk 7)
    else if h = 5 then some (GpuImage.mk 9) else none

/-- Concrete empty cache, used as a witness input. -/
def cacheEmpty : RenderAssets :=
  fun _ => none

/-- Helper: get_bindings when both lookups succeed. -/
theorem get_bindings_both (r : EnvironmentMapLight) (images : RenderAssets)
    (fb : FallbackImageCubemap) (d s : GpuImage)
    (hd : images.get r.diffuse_map = some d)
    (hs : images.get r.specular_map = some s) :
    get_bindings (some r) images fb = (d.texture_view, s.texture_view, fb.sampler) := by
  simp [get_bindings, hd, hs]

/-- Helper: get_bindings when the diffuse lookup misses. -/
theorem get_bindings_diffuse_miss (r : EnvironmentMapLight) (images : RenderAssets)
    (fb : FallbackImageCubemap)
    (hd : images.get r.diffuse_map = none) :
    get_bindings (some r) images fb = (fb.texture_view, fb.texture_view, fb.sampler) := by
  simp [get_bindings, hd]

/-- Helper: get_bindings when the specular lookup misses. -/
theorem get_bindings_specular_miss (r : EnvironmentMapLight) (images : RenderAssets)
    (fb : FallbackImageCubemap)
    (hs : images.get r.specular_map = none) :
    get_bindings (some r) images fb = (fb.texture_view, fb.texture_view, fb.sampler) := by
  cases hd : images.get r.diffuse_map <;> simp [get_bindings, hd, hs]

/-- C1: pairwise fallback.  When exactly one of the record's two
handles resolves to a resident entry in the cache, get_bindings puts
the fallback provider's cubemap view in both the diffuse and the
specular slot, never one real view paired with one fallback view. -/
theorem C1_pairwise_fallback (r : EnvironmentMapLight) (images : RenderAssets)
    (fb : FallbackImageCubemap)
    (h : (images.get r.diffuse_map).isSome ≠ (images.get r.specular_map).isSome) :
    (get_bindings (some r) images fb).1 = fb.texture_view ∧
      (get_bindings (some r) images fb).2.1 = fb.texture_view := by
  cases hd : images.get r.diffuse_map <;> cases hs : images.get r.specular_map <;>
    rw [hd, hs] at h <;> simp at h <;> simp [get_bindings, hd, hs]

theorem C1_pairwise_fallback_witness :
    (get_bindings (some (EnvironmentMapLight.mk 1 2)) cacheDiffuseOnly
        (FallbackImageCubemap.mk 0 5)).1 = 0 ∧
      (get_bindings (some (EnvironmentMapLight.mk 1 2)) cacheDiffuseOnly
        (FallbackImageCubemap.mk 0 5)).2.1 = 0 :=
  C1_pairwise_fallback (EnvironmentMapLight.mk 1 2) cacheDiffuseOnly
    (FallbackImageCubemap.mk 0 5) (by decide)

/-- C2 counterexample: the claim that is_loaded is true exactly when
get_bindings returns two distinct non-fallback views fails when the
record uses the same handle for both maps: the record (1, 1) with a
cache holding handle 1 is loaded, yet both returned views are the same
view 7. -/
theorem C2_readiness_consistency_counterexample :
    ¬ ((EnvironmentMapLight.mk 1 1).is_loaded cacheDiffuseOnly = true ↔
        ((get_bindings (some (EnvironmentMapLight.mk 1 1)) cacheDiffuseOnly
            (FallbackImageCubemap.mk 0 5)).1 ≠
          (get_bindings (some (EnvironmentMapLight.mk 1 1)) cacheDiffuseOnly
            (FallbackImageCubemap.mk 0 5)).2.1 ∧
        (get_bindings (some (EnvironmentMapLight.mk 1 1)) cacheDiffuseOnly
            (FallbackImageCubemap.mk 0 5)).1 ≠ 0 ∧
        (get_bindings (some (EnvironmentMapLight.mk 1 1)) cacheDiffuseOnly
            (FallbackImageCubemap.mk 0 5)).2.1 ≠ 0)) := by
  decide

/-- C2 (amended): is_loaded is true exactly when get_bindings takes
the fully resolved branch, returning the cache-resident diffuse and
specular entries' texture views together with the fallback sampler;
the two views need not be distinct from each other nor from the
fallback view. -/
theorem C2_readiness_consistency (r : EnvironmentMapLight) (images : RenderAssets)
    (fb : FallbackImageCubemap) :
    r.is_loaded images = true ↔
      ∃ d s, images.get r.diffuse_map = some d ∧ images.get r.specular_map = some s ∧
        get_bindings (some r) images fb = (d.texture_view, s.texture_view, fb.sampler) := by
  constructor
  · intro h
    cases hd : images.get r.diffuse_map with
    | none => simp [EnvironmentMapLight.is_loaded, hd] at h
    | some d =>
      cases hs : images.get r.specular_map with
      | none => simp [EnvironmentMapLight.is_loaded, hd, hs] at h
      | some s => exact ⟨d, s, rfl, rfl, get_bindings_both r images fb d s hd hs⟩
  · rintro ⟨d, s, hd, hs, -⟩
    simp [EnvironmentMapLight.is_loaded, hd, hs]

/-- C3: full success.  When both handles resolve to resident entries,
get_bindings returns the diffuse entry's texture view in slot 0, the
specular entry's texture view in slot 1 and the fallback provider's
sampler in slot 2. -/
theorem C3_full_success (r : EnvironmentMapLight) (images : RenderAssets)
    (fb : FallbackImageCubemap) (d s : GpuImage)
    (hd : images.get r.diffuse_map = some d)
    (hs : images.get r.specular_map = some s) :
    get_bindings (some r) images fb = (d.texture_view, s.texture_view, fb.sampler) :=
  get_bindings_both r images fb d s hd hs

theorem C3_full_success_witness :
    get_bindings (some (EnvironmentMapLight.mk 1 2)) cacheBoth
      (FallbackImageCubemap.mk 0 5) = (7, 8, 5) :=
  C3_full_success (EnvironmentMapLight.mk 1 2) cacheBoth
    (FallbackImageCubemap.mk 0 5) (GpuImage.mk 7) (GpuImage.mk 8) (by decide) (by decide)

/-- C4: absent record.  get_bindings with no record returns the
fallback cubemap view in both texture slots and the fallback sampler,
and this is identical to its result for a present record neither of
whose handles resolves in the cache. -/
theorem C4_absent_record (images : RenderAssets) (fb : FallbackImageCubemap)
    (r : EnvironmentMapLight)
    (hd : images.get r.diffuse_map = none)
    (hs : images.get r.specular_map = none) :
    get_bindings none images fb = (fb.texture_view, fb.texture_view, fb.sampler) ∧
      get_bindings (some r) images fb = get_bindings none images fb := by
  refine ⟨rfl, ?_⟩
  simp [get_bindings, hd, hs]

theorem C4_absent_record_witness :
    get_bindings none cacheEmpty (FallbackImageCubemap.mk 0 5) = (0, 0, 5) ∧
      get_bindings (some (EnvironmentMapLight.mk 1 2)) cacheEmpty
          (FallbackImageCubemap.mk 0 5) =
        get_bindings none cacheEmpty (FallbackImageCubemap.mk 0 5) :=
  C4_absent_record cacheEmpty (FallbackImageCubemap.mk 0 5)
    (EnvironmentMapLight.mk 1 2) (by decide) (by decide)

/-- C5: readiness check correctness.  is_loaded returns true exactly
when both the diffuse and the specular handle resolve to resident
entries in the cache, and false otherwise. -/
theorem C5_is_loaded_correct (r : EnvironmentMapLight) (images : RenderAssets) :
    r.is_loaded images = true ↔
      (∃ d, images.get r.diffuse_map = some d) ∧
        (∃ s, images.get r.specular_map = some s) := by
  cases hd : images.get r.diffuse_map <;> cases hs : images.get r.specular_map <;>
    simp [EnvironmentMapLight.is_loaded, hd, hs]

/-- C6: sampler invariance.  The third component of the triple
returned by get_bindings is always the fallback provider's sampler,
whatever the record and cache. -/
theorem C6_sampler_invariance (environment_map_light : Option EnvironmentMapLight)
    (images : RenderAssets) (fb : FallbackImageCubemap) :
    (get_bindings environment_map_light images fb).2.2 = fb.sampler :=
  rfl

/-- C7: layout stability.  get_bind_group_layout_entries takes no
input at all, so it is constant, and it returns exactly three
descriptors in the fixed order: cube texture with floating-point
filterable sample type, cube texture with floating-point filterable
sample type, filtering sampler. -/
theorem C7_layout_stability :
    get_bind_group_layout_entries.length = 3 ∧
      get_bind_group_layout_entries =
        [BindGroupLayoutEntryBuilder.textureCube (TextureSampleType.Float true),
          BindGroupLayoutEntryBuilder.textureCube (TextureSampleType.Float true),
          BindGroupLayoutEntryBuilder.samplerEntry SamplerBindingType.Filtering] :=
  ⟨rfl, rfl⟩

/-- C8: idempotence and determinism.  Two calls of get_bindings on
equal records, equal cache snapshots and equal fallback providers
yield identical result triples. -/
theorem C8_idempotence (env1 env2 : Option EnvironmentMapLight)
    (images1 images2 : RenderAssets) (fb1 fb2 : FallbackImageCubemap)
    (henv : env1 = env2) (himg : images1 = images2) (hfb : fb1 = fb2) :
    get_bindings env1 images1 fb1 = get_bindings env2 images2 fb2 := by
  rw [henv, himg, hfb]

theorem C8_idempotence_witness :
    get_bindings (some (EnvironmentMapLight.mk 1 2)) cacheBoth
        (FallbackImageCubemap.mk 0 5) =
      get_bindings (some (EnvironmentMapLight.mk 1 2)) cacheBoth
        (FallbackImageCubemap.mk 0 5) :=
  C8_idempotence (some (EnvironmentMapLight.mk 1 2)) (some (EnvironmentMapLight.mk 1 2))
    cacheBoth cacheBoth (FallbackImageCubemap.mk 0 5) (FallbackImageCubemap.mk 0 5)
    rfl rfl rfl

/-- C9: totality.  get_bindings and is_loaded are total: for every
combination of record presence, cache and fallback provider they
return a value, and the readiness check returns one of the two
booleans. -/
theorem C9_totality (environment_map_light : Option EnvironmentMapLight)
    (images : RenderAssets) (fb : FallbackImageCubemap) (r : EnvironmentMapLight) :
    (∃ v, get_bindings environment_map_light images fb = v) ∧
      (r.is_loaded images = true ∨ r.is_loaded images = false) :=
  ⟨⟨get_bindings environment_map_light images fb, rfl⟩, by
    cases r.is_loaded images <;> simp⟩

/-- C10: noninterference with unrelated cache entries.  Two caches
that agree on the lookups of the record's own diffuse and specular
handles give identical get_bindings triples and identical is_loaded
answers, however they differ on other keys. -/
theorem C10_noninterference (r : EnvironmentMapLight) (images1 images2 : RenderAssets)
    (fb : FallbackImageCubemap)
    (hd : images1.get r.diffuse_map = images2.get r.diffuse_map)
    (hs : images1.get r.specular_map = images2.get r.specular_map) :
    get_bindings (some r) images1 fb = get_bindings (some r) images2 fb ∧
      r.is_loaded images1 = r.is_loaded images2 := by
  constructor
  · simp only [get_bindings, Option.some_bind, hd, hs]
  · simp only [EnvironmentMapLight.is_loaded, hd, hs]

theorem C10_noninterference_witness :
    get_bindings (some (EnvironmentMapLight.mk 1 2)) cacheDiffuseOnly
        (FallbackImageCubemap.mk 0 5) =
      get_bindings (some (EnvironmentMapLight.mk 1 2)) cacheExtra
        (FallbackImageCubemap.mk 0 5) ∧
      (EnvironmentMapLight.mk 1 2).is_loaded cacheDiffuseOnly =
        (EnvironmentMapLight.mk 1 2).is_loaded cacheExtra :=
  C10_noninterference (EnvironmentMapLight.mk 1 2) cacheDiffuseOnly cacheExtra
    (FallbackImageCubemap.mk 0 5) (by decide) (by decide)

end EnvironmentMap
